import Mathlib

/-!
Verification of the gonetwork state-channel core: a shallow embedding of
`src/state-channel/state-machine.ts` (the Initiator and Target behavioural
state machines for mediated transfers) and `lib/state-channel/message.js`
(the typed message layer with ABI-style hash pre-images and tagged
JSON serialization), together with theorems settling the specification
claims about them.

Conventions of the embedding:
* byte buffers are `List Nat` (one entry per byte);
* `BN` big numbers are `Nat` (they are non-negative and unbounded);
* the keccak256 hash (`util.sha3` / the hash inside `abi.soliditySHA3`)
  is an explicit function parameter `keccak : Bytes → Bytes`, since its
  implementation lives outside this repository;
* a JavaScript `throw` is an `Except.error` / an absent result;
* `REVEAL_TIMEOUT`, imported from the (absent) `channel` module, is an
  explicit `Nat` parameter `revealTimeout`.
-/

namespace GN

/-- A byte buffer, one `Nat` per byte. -/
abbrev Bytes := List Nat

/-- The `Lock` data carried by locked transfers and by the state-machine
record: `amount`, absolute `expiration` block and the `hashLock` digest
(`message.js`, class `Lock`). -/
structure Lock where
  amount : Nat
  expiration : Nat
  hashLock : Bytes
  deriving DecidableEq, Repr

/-- The per-transfer state record the engine hands to both machines: the
mediated-transfer payload plus the working fields (`secret`, `revealTo`)
that transition handlers write (`state-machine.ts`). `from_` models the
source's `from` field (a Lean keyword). -/
structure TransferState where
  msgID : Nat
  to_ : Bytes
  target : Bytes
  initiator : Bytes
  from_ : Bytes
  lock : Lock
  secret : Option Bytes := none
  revealTo : Option Bytes := none
  deriving DecidableEq, Repr

/-- The fields of a received `RequestSecret` the initiator machine reads;
`from_` is the sender address recovered from the message signature. -/
structure RequestSecretMsg where
  from_ : Bytes
  hashLock : Bytes
  msgID : Nat
  deriving DecidableEq, Repr

/-- The fields of a received `RevealSecret` the machines read. -/
structure RevealSecretMsg where
  from_ : Bytes
  secret : Bytes
  deriving DecidableEq, Repr

/-- The fields of a received `SecretToProof` the target machine reads. -/
structure SecretToProofMsg where
  from_ : Bytes
  deriving DecidableEq, Repr

/-- Initiator machine state labels (`InitiatorFactory.states`). -/
inductive ILabel where
  | init
  | awaitRequestSecret
  | awaitRevealSecret
  | completedTransfer
  | failedTransfer
  | expiredTransfer
  deriving DecidableEq, Repr

/-- Target machine state labels (`TargetFactory.states`). -/
inductive TLabel where
  | init
  | awaitRevealSecret
  | awaitSecretToProof
  | completedTransfer
  | expiredTransfer
  deriving DecidableEq, Repr

/-- Side-effect events a transition handler emits (`this.emit('GOT.…', payload)`);
each carries the state record passed as payload. -/
inductive Emit where
  | sendMediatedTransfer (s : TransferState)
  | sendRequestSecret (s : TransferState)
  | sendRevealSecret (s : TransferState)
  | sendSecretToProof (s : TransferState)
  | receiveSecretToProof (s : TransferState)
  | closeChannel (s : TransferState)
  deriving DecidableEq, Repr

/-- Events deliverable to the Initiator machine. `handleBlock` stands for any
block-tick input; at `init` the `'*'` handler catches every input kind. -/
inductive IEvent where
  | receiveRequestSecret (rs : RequestSecretMsg)
  | receiveRevealSecret (rv : RevealSecretMsg)
  | handleBlock (currentBlock : Nat)
  deriving DecidableEq, Repr

/-- Events deliverable to the Target machine. `handleBlock` carries a current
block height; at `init` the `'*'` handler reads that height from whatever
event arrives first. -/
inductive TEvent where
  | handleBlock (currentBlock : Nat)
  | receiveRevealSecret (rv : RevealSecretMsg)
  | receiveSecretToProof (p : SecretToProofMsg)
  deriving DecidableEq, Repr

/-- The outcome of feeding one event to a machine: the transition taken (if
any), the side-effects emitted, and the (possibly mutated) state record.
`next = none` models machina's silent non-transition. -/
structure Out (L : Type) where
  next : Option L
  emits : List Emit
  state : TransferState
  deriving DecidableEq, Repr

/-- One step of the Initiator machine (`InitiatorFactory`): at `init` the
`'*'` handler emits `sendMediatedTransfer` on any event and moves to
`awaitRequestSecret`; `awaitRequestSecret` matches a `RequestSecret` by
target address, hashLock and msgID, mutates `revealTo := target`, emits
`sendRevealSecret` and moves on; `awaitRevealSecret` matches a
`RevealSecret` by sender `state.to` and `keccak secret = hashLock`, emits
`sendSecretToProof` and completes; everything else is silently ignored. -/
def initiatorStep (keccak : Bytes → Bytes) :
    ILabel → IEvent → TransferState → Out ILabel
  | .init, _, s => ⟨some .awaitRequestSecret, [.sendMediatedTransfer s], s⟩
  | .awaitRequestSecret, .receiveRequestSecret rs, s =>
      if s.target = rs.from_ ∧ s.lock.hashLock = rs.hashLock ∧ s.msgID = rs.msgID then
        ⟨some .awaitRevealSecret,
         [.sendRevealSecret { s with revealTo := some s.target }],
         { s with revealTo := some s.target }⟩
      else ⟨none, [], s⟩
  | .awaitRevealSecret, .receiveRevealSecret rv, s =>
      if rv.from_ = s.to_ ∧ s.lock.hashLock = keccak rv.secret then
        ⟨some .completedTransfer, [.sendSecretToProof s], s⟩
      else ⟨none, [], s⟩
  | _, _, s => ⟨none, [], s⟩

/-- One step of the Target machine (`TargetFactory`). At `init` the `'*'`
handler needs the current block height as payload; events that do not carry
one make the handler fall over in the source (`currentBlock.add` on a
non-number), modelled as `none`. Expiry is
`lock.expiration ≤ currentBlock + revealTimeout` throughout. -/
def targetStep (keccak : Bytes → Bytes) (revealTimeout : Nat) :
    TLabel → TEvent → TransferState → Option (Out TLabel)
  | .init, .handleBlock currentBlock, s =>
      if s.lock.expiration ≤ currentBlock + revealTimeout then
        some ⟨some .expiredTransfer, [], s⟩
      else
        some ⟨some .awaitRevealSecret, [.sendRequestSecret s], s⟩
  | .init, _, _ => none
  | .awaitRevealSecret, .receiveRevealSecret rv, s =>
      if s.lock.hashLock = keccak rv.secret ∧ s.initiator = rv.from_ then
        some ⟨some .awaitSecretToProof,
          [.sendRevealSecret { s with secret := some rv.secret, revealTo := some s.from_ }],
          { s with secret := some rv.secret, revealTo := some s.from_ }⟩
      else some ⟨none, [], s⟩
  | .awaitRevealSecret, .handleBlock currentBlock, s =>
      if s.lock.expiration ≤ currentBlock + revealTimeout then
        some ⟨some .expiredTransfer, [], s⟩
      else some ⟨none, [], s⟩
  | .awaitSecretToProof, .receiveSecretToProof p, s =>
      if p.from_ = s.from_ then
        some ⟨some .completedTransfer, [.receiveSecretToProof s], s⟩
      else some ⟨none, [], s⟩
  | .awaitSecretToProof, .handleBlock currentBlock, s =>
      if s.lock.expiration ≤ currentBlock + revealTimeout then
        some ⟨some .completedTransfer, [.closeChannel s], s⟩
      else some ⟨none, [], s⟩
  | _, _, s => some ⟨none, [], s⟩

/-- C1: at Target `init`, the first event carrying a current block height
moves straight to `expiredTransfer` with no emission when
`lock.expiration ≤ currentBlock + RevealTimeout`, and otherwise emits
exactly `sendRequestSecret` and moves to `awaitRevealSecret`. -/
theorem C1_target_init_timeout (keccak : Bytes → Bytes) (revealTimeout : Nat)
    (currentBlock : Nat) (s : TransferState) :
    targetStep keccak revealTimeout .init (.handleBlock currentBlock) s =
      (if s.lock.expiration ≤ currentBlock + revealTimeout then
        some ⟨some .expiredTransfer, [], s⟩
      else
        some ⟨some .awaitRevealSecret, [.sendRequestSecret s], s⟩) := by
  rfl

/-- C2: at Initiator `awaitRequestSecret`, a received `RequestSecret`
causes a transition exactly when its sender is `state.target`, its
hashLock is `state.lock.hashLock` and its msgID is `state.msgID`; on the
match the machine emits one `sendRevealSecret` addressed to `state.target`
(the record's `revealTo` is set to `state.target`) and moves to
`awaitRevealSecret`; on any mismatch the record is unchanged and nothing
is emitted. -/
theorem C2_initiator_requestSecret (keccak : Bytes → Bytes)
    (rs : RequestSecretMsg) (s : TransferState) :
    initiatorStep keccak .awaitRequestSecret (.receiveRequestSecret rs) s =
      if s.target = rs.from_ ∧ s.lock.hashLock = rs.hashLock ∧ s.msgID = rs.msgID then
        ⟨some .awaitRevealSecret,
         [.sendRevealSecret { s with revealTo := some s.target }],
         { s with revealTo := some s.target }⟩
      else ⟨none, [], s⟩ := by
  rfl

/-- C3: at Initiator `awaitRevealSecret`, a received `RevealSecret` causes
a transition exactly when its sender is `state.to` and its secret hashes to
`state.lock.hashLock`; on the match the machine emits `sendSecretToProof`
and moves to `completedTransfer`; a reveal with an unrelated secret leaves
the state unchanged and emits nothing. -/
theorem C3_initiator_revealSecret (keccak : Bytes → Bytes)
    (rv : RevealSecretMsg) (s : TransferState) :
    initiatorStep keccak .awaitRevealSecret (.receiveRevealSecret rv) s =
      if rv.from_ = s.to_ ∧ s.lock.hashLock = keccak rv.secret then
        ⟨some .completedTransfer, [.sendSecretToProof s], s⟩
      else ⟨none, [], s⟩ := by
  rfl

/-- C4: at Target `awaitSecretToProof`, a received `SecretToProof` causes a
transition exactly when its sender is `state.from`, emitting
`receiveSecretToProof` and moving to `completedTransfer`; a block tick with
`lock.expiration ≤ currentBlock + RevealTimeout` emits `closeChannel` and
moves to `completedTransfer`. -/
theorem C4_target_secretToProof (keccak : Bytes → Bytes) (revealTimeout : Nat)
    (p : SecretToProofMsg) (currentBlock : Nat) (s : TransferState) :
    (targetStep keccak revealTimeout .awaitSecretToProof (.receiveSecretToProof p) s =
      if p.from_ = s.from_ then
        some ⟨some .completedTransfer, [.receiveSecretToProof s], s⟩
      else some ⟨none, [], s⟩)
    ∧
    (targetStep keccak revealTimeout .awaitSecretToProof (.handleBlock currentBlock) s =
      if s.lock.expiration ≤ currentBlock + revealTimeout then
        some ⟨some .completedTransfer, [.closeChannel s], s⟩
      else some ⟨none, [], s⟩) := by
  exact ⟨rfl, rfl⟩

/-- C8 (counterexample): the claim that every successfully matched event
causes exactly one emitted side-effect is false: at Target `init` with an
already-expired lock (expiration 0, current block 0, RevealTimeout 10) the
event is accepted — the machine moves to `expiredTransfer` — yet the list
of emitted side-effects is empty. -/
theorem C8_counterexample :
    targetStep (fun b => b) 10 .init (.handleBlock 0)
      { msgID := 0, to_ := [], target := [], initiator := [], from_ := [],
        lock := { amount := 0, expiration := 0, hashLock := [] } } =
      some { next := some .expiredTransfer, emits := [],
             state := { msgID := 0, to_ := [], target := [], initiator := [],
                        from_ := [],
                        lock := { amount := 0, expiration := 0, hashLock := [] } } } := by
  rfl

/-- C8 (amended): for both machines, in every state and for every handled
event, the step emits at most one side-effect and takes at most one state
move; a mismatched event causes zero moves, zero emissions and leaves the
record unchanged. (The original claim's "exactly one emitted side-effect"
fails only on the Target's expiry moves, which emit nothing.) -/
theorem C8_amended_single_transition :
    (∀ (keccak : Bytes → Bytes) (l : ILabel) (e : IEvent) (s : TransferState),
      (initiatorStep keccak l e s).emits.length ≤ 1 ∧
      ((initiatorStep keccak l e s).next = none →
        (initiatorStep keccak l e s).emits = [] ∧
        (initiatorStep keccak l e s).state = s))
    ∧
    (∀ (keccak : Bytes → Bytes) (revealTimeout : Nat) (l : TLabel) (e : TEvent)
      (s : TransferState) (out : Out TLabel),
      targetStep keccak revealTimeout l e s = some out →
      out.emits.length ≤ 1 ∧
      (out.next = none → out.emits = [] ∧ out.state = s)) := by
  constructor
  · intro keccak l e s
    cases l <;> cases e <;> simp only [initiatorStep] <;>
      first
        | simp
        | (split <;> simp)
  · intro keccak revealTimeout l e s out h
    cases l <;> cases e <;> simp only [targetStep] at h <;>
      first
        | exact Option.noConfusion h
        | (cases h; simp)
        | (split at h <;> cases h <;> simp)

/-- C8 (witness): the amended invariant applied at concrete inputs — the
initiator part at `awaitRequestSecret` on a mismatching `RequestSecret`,
and the target part at `awaitRevealSecret` on a fresh block tick. -/
theorem C8_amended_single_transition_witness :
    ((initiatorStep (fun b => b) .awaitRequestSecret
        (.receiveRequestSecret { from_ := [1], hashLock := [], msgID := 0 })
        { msgID := 0, to_ := [], target := [], initiator := [], from_ := [],
          lock := { amount := 0, expiration := 0, hashLock := [] } }).emits.length ≤ 1)
    ∧
    (({ next := none, emits := [], state :=
        { msgID := 0, to_ := [], target := [], initiator := [], from_ := [],
          lock := { amount := 0, expiration := 50, hashLock := [] } } } : Out TLabel).emits.length ≤ 1) := by
  constructor
  · exact (C8_amended_single_transition.1 (fun b => b) .awaitRequestSecret
      (.receiveRequestSecret { from_ := [1], hashLock := [], msgID := 0 })
      { msgID := 0, to_ := [], target := [], initiator := [], from_ := [],
        lock := { amount := 0, expiration := 0, hashLock := [] } }).1
  · exact (C8_amended_single_transition.2 (fun b => b) 10 .awaitRevealSecret
      (.handleBlock 0)
      { msgID := 0, to_ := [], target := [], initiator := [], from_ := [],
        lock := { amount := 0, expiration := 50, hashLock := [] } }
      { next := none, emits := [], state :=
        { msgID := 0, to_ := [], target := [], initiator := [], from_ := [],
          lock := { amount := 0, expiration := 50, hashLock := [] } } }
      (by decide)).1

/-! ### The message layer (`lib/state-channel/message.js`)

ABI-style packing: `abi.soliditySHA3(types, values)` is keccak256 of
`abi.solidityPack(types, values)`, which concatenates each value at its
fixed width — `uint256` as 32 big-endian bytes, `address` as 20 bytes,
`bytes32` as 32 bytes. -/

/-- Big-endian byte string of a natural number (no leading zeros). -/
def natBytesBE (n : Nat) : Bytes := (Nat.digits 256 n).reverse

/-- Left-pad with zero bytes to width `w` (truncating from the left when
longer), as `util.setLengthLeft` does when packing fixed-width values. -/
def setLengthLeft (w : Nat) (b : Bytes) : Bytes :=
  if b.length ≤ w then List.replicate (w - b.length) 0 ++ b
  else b.drop (b.length - w)

/-- One typed value in an ABI pack: `uint256`, `address` or `bytes32`. -/
inductive AbiVal where
  | u256 (n : Nat)
  | addr (b : Bytes)
  | b32 (b : Bytes)

/-- Fixed-width encoding of one ABI value. -/
def abiEncOne : AbiVal → Bytes
  | .u256 n => setLengthLeft 32 (natBytesBE (n % 2 ^ 256))
  | .addr b => setLengthLeft 20 b
  | .b32 b => setLengthLeft 32 b

/-- `abi.solidityPack`: the concatenation of the fixed-width encodings. -/
def solidityPack (vs : List AbiVal) : Bytes := (vs.map abiEncOne).flatten

/-- `Lock.getMessageHash()`: keccak of the packed
`(amount:u256, expiration:u256, hashLock:bytes32)`. -/
def Lock.getMessageHash (keccak : Bytes → Bytes) (l : Lock) : Bytes :=
  keccak (solidityPack [.u256 l.amount, .u256 l.expiration, .b32 l.hashLock])

/-- An ECDSA signature as ethereumjs produces it: 32-byte `r`, 32-byte `s`
and recovery byte `v`. -/
structure Signature where
  r : Bytes
  s : Bytes
  v : Nat
  deriving DecidableEq, Repr

/-- The `Proof` message fields (class `Proof`). -/
structure Proof where
  nonce : Nat
  transferredAmount : Nat
  locksRoot : Bytes
  channelAddress : Bytes
  messageHash : Bytes
  signature : Option Signature
  deriving DecidableEq, Repr

/-- The `ProofMessage` fields (class `ProofMessage`; same data as `Proof`,
distinct class and wire tag). -/
structure ProofMessage where
  nonce : Nat
  transferredAmount : Nat
  locksRoot : Bytes
  channelAddress : Bytes
  messageHash : Bytes
  signature : Option Signature
  deriving DecidableEq, Repr

/-- The `DirectTransfer` fields: the proof-message fields plus `msgID` and
the recipient address `to` (field `to_` here). -/
structure DirectTransfer where
  nonce : Nat
  transferredAmount : Nat
  locksRoot : Bytes
  channelAddress : Bytes
  messageHash : Bytes
  msgID : Nat
  to_ : Bytes
  signature : Option Signature
  deriving DecidableEq, Repr

/-- The `LockedTransfer` fields: a direct transfer plus a lock. The lock is
optional because the constructor leaves `this.lock` unset when
`options.lock` is absent (it assigns the default into `options`, not into
`this`). -/
structure LockedTransfer where
  nonce : Nat
  transferredAmount : Nat
  locksRoot : Bytes
  channelAddress : Bytes
  messageHash : Bytes
  msgID : Nat
  to_ : Bytes
  lock : Option Lock
  signature : Option Signature
  deriving DecidableEq, Repr

/-- The `MediatedTransfer` fields: a locked transfer plus `target` and
`initiator` addresses. -/
structure MediatedTransfer where
  nonce : Nat
  transferredAmount : Nat
  locksRoot : Bytes
  channelAddress : Bytes
  messageHash : Bytes
  msgID : Nat
  to_ : Bytes
  lock : Option Lock
  target : Bytes
  initiator : Bytes
  signature : Option Signature
  deriving DecidableEq, Repr

/-- The `RequestSecret` fields. -/
structure RequestSecret where
  msgID : Nat
  to_ : Bytes
  hashLock : Bytes
  amount : Nat
  signature : Option Signature
  deriving DecidableEq, Repr

/-- The `RevealSecret` fields; its hashLock is derived (`sha3(secret)`),
never stored. -/
structure RevealSecret where
  secret : Bytes
  to_ : Bytes
  signature : Option Signature
  deriving DecidableEq, Repr

/-- The `SecretToProof` fields: proof-message fields plus `msgID`, `to`
and the revealed `secret`. -/
structure SecretToProof where
  nonce : Nat
  transferredAmount : Nat
  locksRoot : Bytes
  channelAddress : Bytes
  messageHash : Bytes
  msgID : Nat
  to_ : Bytes
  secret : Bytes
  signature : Option Signature
  deriving DecidableEq, Repr

/-- The `Ack` fields. `Ack` does not extend `SignedMessage` and its
constructor sets no `classType` property. -/
structure Ack where
  to_ : Bytes
  messageHash : Bytes
  msgID : Nat
  deriving DecidableEq, Repr

/-- `DirectTransfer.getMessageHash()`: packs
`(msgID, nonce, transferredAmount, channelAddress, locksRoot, to)`. -/
def DirectTransfer.getMessageHash (keccak : Bytes → Bytes) (m : DirectTransfer) : Bytes :=
  keccak (solidityPack [.u256 m.msgID, .u256 m.nonce, .u256 m.transferredAmount,
    .addr m.channelAddress, .b32 m.locksRoot, .addr m.to_])

/-- The pre-image `LockedTransfer.getMessageHash()` hashes: the direct-transfer
fields followed by the lock's own hash; `none` when the lock is unset (the
source dereferences `this.lock` and throws). -/
def LockedTransfer.getMessageHashPreimage (keccak : Bytes → Bytes)
    (m : LockedTransfer) : Option Bytes :=
  m.lock.map fun l => solidityPack [.u256 m.msgID, .u256 m.nonce,
    .u256 m.transferredAmount, .addr m.channelAddress, .b32 m.locksRoot,
    .addr m.to_, .b32 (Lock.getMessageHash keccak l)]

/-- `LockedTransfer.getMessageHash()`, failing when the lock is unset. -/
def LockedTransfer.getMessageHash (keccak : Bytes → Bytes)
    (m : LockedTransfer) : Option Bytes :=
  (m.getMessageHashPreimage keccak).map keccak

/-- The pre-image `MediatedTransfer.getMessageHash()` hashes:
`(msgID, nonce, transferredAmount, channelAddress, locksRoot, to, target,
initiator, lock.getMessageHash())`. -/
def MediatedTransfer.getMessageHashPreimage (keccak : Bytes → Bytes)
    (m : MediatedTransfer) : Option Bytes :=
  m.lock.map fun l => solidityPack [.u256 m.msgID, .u256 m.nonce,
    .u256 m.transferredAmount, .addr m.channelAddress, .b32 m.locksRoot,
    .addr m.to_, .addr m.target, .addr m.initiator,
    .b32 (Lock.getMessageHash keccak l)]

/-- `MediatedTransfer.getMessageHash()`. -/
def MediatedTransfer.getMessageHash (keccak : Bytes → Bytes)
    (m : MediatedTransfer) : Option Bytes :=
  (m.getMessageHashPreimage keccak).map keccak

/-- The pre-image `RequestSecret.getHash()` hashes:
`(msgID:u256, to:addr, hashLock:bytes32, amount:u256)` — deliberately no
expiration. -/
def RequestSecret.getHashPreimage (m : RequestSecret) : Bytes :=
  solidityPack [.u256 m.msgID, .addr m.to_, .b32 m.hashLock, .u256 m.amount]

/-- `RequestSecret.getHash()`. -/
def RequestSecret.getHash (keccak : Bytes → Bytes) (m : RequestSecret) : Bytes :=
  keccak m.getHashPreimage

/-- Helper: packing a fixed-width value of exactly the expected width is the
identity. -/
theorem setLengthLeft_eq_self {w : Nat} {b : Bytes} (h : b.length = w) :
    setLengthLeft w b = b := by
  simp [setLengthLeft, h]

/-- Helper: the address encoding of a 20-byte buffer is the buffer itself. -/
theorem abiEncOne_addr_eq {b : Bytes} (h : b.length = 20) :
    abiEncOne (.addr b) = b :=
  setLengthLeft_eq_self h

/-- C5: the `MediatedTransfer` hash pre-image is the ABI concatenation of
the LockedTransfer scalar fields `(msgID, nonce, transferredAmount,
channelAddress, locksRoot, to)` followed by `target`, `initiator` and the
lock's own hash; consequently (second part) the digest binds `target` and
`initiator` — two mediated transfers agreeing on everything else but with
equal pre-images have equal targets and equal initiators. -/
theorem C5_mediatedTransfer_preimage :
    (∀ (keccak : Bytes → Bytes) (m : MediatedTransfer) (l : Lock),
      m.lock = some l →
      m.getMessageHashPreimage keccak = some
        (solidityPack [.u256 m.msgID, .u256 m.nonce, .u256 m.transferredAmount,
          .addr m.channelAddress, .b32 m.locksRoot, .addr m.to_]
        ++ abiEncOne (.addr m.target) ++ abiEncOne (.addr m.initiator)
        ++ abiEncOne (.b32 (Lock.getMessageHash keccak l))))
    ∧
    (∀ (keccak : Bytes → Bytes) (m₁ m₂ : MediatedTransfer) (l : Lock),
      m₁.lock = some l → m₂.lock = some l →
      m₁.msgID = m₂.msgID → m₁.nonce = m₂.nonce →
      m₁.transferredAmount = m₂.transferredAmount →
      m₁.channelAddress = m₂.channelAddress → m₁.locksRoot = m₂.locksRoot →
      m₁.to_ = m₂.to_ →
      m₁.target.length = 20 → m₂.target.length = 20 →
      m₁.initiator.length = 20 → m₂.initiator.length = 20 →
      m₁.getMessageHashPreimage keccak = m₂.getMessageHashPreimage keccak →
      m₁.target = m₂.target ∧ m₁.initiator = m₂.initiator) := by
  constructor
  · intro keccak m l hl
    simp [MediatedTransfer.getMessageHashPreimage, hl, solidityPack,
      List.append_assoc]
  · intro keccak m₁ m₂ l hl₁ hl₂ hms hn hta hca hlr hto ht₁ ht₂ hi₁ hi₂ hpre
    simp only [MediatedTransfer.getMessageHashPreimage, hl₁, hl₂, hms, hn,
      hta, hca, hlr, hto, Option.map_some', Option.some.injEq, solidityPack,
      List.map, List.flatten] at hpre
    have h₁ := List.append_cancel_left hpre
    have h₂ := List.append_cancel_left h₁
    have h₃ := List.append_cancel_left h₂
    have h₄ := List.append_cancel_left h₃
    have h₅ := List.append_cancel_left h₄
    have h₆ := List.append_cancel_left h₅
    rw [abiEncOne_addr_eq ht₁, abiEncOne_addr_eq ht₂,
      abiEncOne_addr_eq hi₁, abiEncOne_addr_eq hi₂] at h₆
    have htail := List.append_inj h₆ (by rw [ht₁, ht₂])
    refine ⟨htail.1, ?_⟩
    exact (List.append_inj htail.2 (by rw [hi₁, hi₂])).1

/-- C5 (witness): both parts of the pre-image characterisation applied to a
concrete mediated transfer with 20-byte target and initiator addresses. -/
theorem C5_mediatedTransfer_preimage_witness :
    (({ nonce := 1, transferredAmount := 2, locksRoot := List.replicate 32 0,
        channelAddress := List.replicate 20 0, messageHash := List.replicate 32 0,
        msgID := 3, to_ := List.replicate 20 5,
        lock := some { amount := 4, expiration := 9, hashLock := List.replicate 32 7 },
        target := List.replicate 20 2, initiator := List.replicate 20 3,
        signature := none } : MediatedTransfer).getMessageHashPreimage (fun b => b) = some
        (solidityPack [.u256 3, .u256 1, .u256 2,
          .addr (List.replicate 20 0), .b32 (List.replicate 32 0),
          .addr (List.replicate 20 5)]
        ++ abiEncOne (.addr (List.replicate 20 2))
        ++ abiEncOne (.addr (List.replicate 20 3))
        ++ abiEncOne (.b32 (Lock.getMessageHash (fun b => b)
            { amount := 4, expiration := 9, hashLock := List.replicate 32 7 }))))
    ∧ (List.replicate 20 2 = List.replicate 20 2
       ∧ List.replicate 20 3 = (List.replicate 20 3 : Bytes)) := by
  constructor
  · exact C5_mediatedTransfer_preimage.1 (fun b => b)
      { nonce := 1, transferredAmount := 2, locksRoot := List.replicate 32 0,
        channelAddress := List.replicate 20 0, messageHash := List.replicate 32 0,
        msgID := 3, to_ := List.replicate 20 5,
        lock := some { amount := 4, expiration := 9, hashLock := List.replicate 32 7 },
        target := List.replicate 20 2, initiator := List.replicate 20 3,
        signature := none }
      { amount := 4, expiration := 9, hashLock := List.replicate 32 7 } rfl
  · exact C5_mediatedTransfer_preimage.2 (fun b => b)
      { nonce := 1, transferredAmount := 2, locksRoot := List.replicate 32 0,
        channelAddress := List.replicate 20 0, messageHash := List.replicate 32 0,
        msgID := 3, to_ := List.replicate 20 5,
        lock := some { amount := 4, expiration := 9, hashLock := List.replicate 32 7 },
        target := List.replicate 20 2, initiator := List.replicate 20 3,
        signature := none }
      { nonce := 1, transferredAmount := 2, locksRoot := List.replicate 32 0,
        channelAddress := List.replicate 20 0, messageHash := List.replicate 32 0,
        msgID := 3, to_ := List.replicate 20 5,
        lock := some { amount := 4, expiration := 9, hashLock := List.replicate 32 7 },
        target := List.replicate 20 2, initiator := List.replicate 20 3,
        signature := none }
      { amount := 4, expiration := 9, hashLock := List.replicate 32 7 }
      rfl rfl rfl rfl rfl rfl rfl rfl
      (by simp) (by simp) (by simp) (by simp) rfl

/-- C6: the `RequestSecret` hash pre-image is exactly the ABI concatenation
`(msgID:u256, to:addr, hashLock:bytes32, amount:u256)`; no expiration value
enters it, so any two RequestSecrets agreeing on those four fields (and in
particular differing only in signature or in any expiration data carried
elsewhere) have equal hashes. -/
theorem C6_requestSecret_preimage :
    ∀ (keccak : Bytes → Bytes) (r₁ r₂ : RequestSecret),
      (r₁.getHashPreimage =
        abiEncOne (.u256 r₁.msgID) ++ abiEncOne (.addr r₁.to_)
        ++ abiEncOne (.b32 r₁.hashLock) ++ abiEncOne (.u256 r₁.amount))
      ∧ (r₁.msgID = r₂.msgID → r₁.to_ = r₂.to_ → r₁.hashLock = r₂.hashLock →
         r₁.amount = r₂.amount →
         r₁.getHash keccak = r₂.getHash keccak) := by
  intro keccak r₁ r₂
  constructor
  · simp [RequestSecret.getHashPreimage, solidityPack, List.append_assoc]
  · intro h₁ h₂ h₃ h₄
    simp [RequestSecret.getHash, RequestSecret.getHashPreimage, h₁, h₂, h₃, h₄]

/-- C6 (witness): the pre-image characterisation applied to two concrete
RequestSecrets that differ only in their signature. -/
theorem C6_requestSecret_preimage_witness :
    (({ msgID := 1, to_ := List.replicate 20 9, hashLock := List.replicate 32 8,
        amount := 77, signature := none } : RequestSecret).getHashPreimage =
      abiEncOne (.u256 1) ++ abiEncOne (.addr (List.replicate 20 9))
      ++ abiEncOne (.b32 (List.replicate 32 8)) ++ abiEncOne (.u256 77))
    ∧ RequestSecret.getHash (fun b => b)
        { msgID := 1, to_ := List.replicate 20 9, hashLock := List.replicate 32 8,
          amount := 77, signature := none } =
      RequestSecret.getHash (fun b => b)
        { msgID := 1, to_ := List.replicate 20 9, hashLock := List.replicate 32 8,
          amount := 77,
          signature := some { r := List.replicate 32 1, s := List.replicate 32 2, v := 27 } } := by
  constructor
  · exact (C6_requestSecret_preimage (fun b => b)
      { msgID := 1, to_ := List.replicate 20 9, hashLock := List.replicate 32 8,
        amount := 77, signature := none }
      { msgID := 1, to_ := List.replicate 20 9, hashLock := List.replicate 32 8,
        amount := 77, signature := none }).1
  · exact (C6_requestSecret_preimage (fun b => b)
      { msgID := 1, to_ := List.replicate 20 9, hashLock := List.replicate 32 8,
        amount := 77, signature := none }
      { msgID := 1, to_ := List.replicate 20 9, hashLock := List.replicate 32 8,
        amount := 77,
        signature := some { r := List.replicate 32 1, s := List.replicate 32 2, v := 27 } }).2
      rfl rfl rfl rfl

/-! ### The tagged JSON wire format

`SERIALIZE` is `JSON.stringify`; `DESERIALIZE` is `JSON.parse` with
`JSON_REVIVER_FUNC`, which turns `{type:'Buffer',data:[…]}` nodes back into
buffers. We model the composition `parse(reviver) ∘ stringify` directly on
the object graph: `jbuf` is a (revived) buffer node, `jhex` is the hex
numeral string a `BN` serialises to via `toJSON` (represented by its digit
list), `jstr` a plain string, `jobj` the object's own enumerable fields in
insertion order. Getter properties (`from`, derived `hashLock`) live on the
prototype and are not serialised. -/

/-- A revived JSON value. -/
inductive JVal where
  | jnull
  | jnum (n : Nat)
  | jstr (s : String)
  | jhex (digits : List Nat)
  | jbuf (bytes : Bytes)
  | jobj (fields : List (String × JVal))

/-- `EMPTY_32BYTE_BUFFER`. -/
def EMPTY_32BYTE_BUFFER : Bytes := List.replicate 32 0

/-- `EMPTY_20BYTE_BUFFER`. -/
def EMPTY_20BYTE_BUFFER : Bytes := List.replicate 20 0

/-- Property lookup on a revived object. -/
def getField : List (String × JVal) → String → Option JVal
  | [], _ => none
  | (k, v) :: rest, key => if k = key then some v else getField rest key

/-- `TO_BN(options.k) || new BN(0)` on a revived field: an absent property
gives `new util.BN(undefined, 16)`, whose constructor coerces the value to
`0`; a hex numeral string parses base-16; any `BN` result is truthy, so the
`|| new BN(0)` fallback never fires. Shapes that do not arise from
`SERIALIZE` of the modelled kinds are left unmodelled. -/
def decBN (o : List (String × JVal)) (k : String) : Except String Nat :=
  match getField o k with
  | none => .ok 0
  | some (.jhex ds) => .ok (Nat.ofDigits 16 ds)
  | some _ => .error "numeric field shape outside the modelled wire image"

/-- `options.k || default` on a buffer field: absent or `null` gives the
default buffer; a revived buffer (always truthy) is stored as is. -/
def decBuf (o : List (String × JVal)) (k : String) (dflt : Bytes) :
    Except String Bytes :=
  match getField o k with
  | none => .ok dflt
  | some .jnull => .ok dflt
  | some (.jbuf b) => .ok b
  | some _ => .error "buffer field shape outside the modelled wire image"

/-- `options.signature || null`: the constructor stores the revived
signature object (with buffer `r`, `s` and numeric `v`) unchanged. -/
def decSig (o : List (String × JVal)) : Except String (Option Signature) :=
  match getField o "signature" with
  | none => .ok none
  | some .jnull => .ok none
  | some (.jobj so) =>
    match getField so "r", getField so "s", getField so "v" with
    | some (.jbuf r), some (.jbuf s), some (.jnum v) => .ok (some ⟨r, s, v⟩)
    | _, _, _ => .error "signature shape outside the modelled wire image"
  | some _ => .error "signature shape outside the modelled wire image"

/-- The `LockedTransfer` constructor's lock handling: when `options.lock`
is absent or falsy the default `new Lock({})` is assigned into `options`
but never into `this`, so the field stays unset (`none`); a revived plain
object goes through `new Lock(options.lock)` (at the wire boundary
`options.lock` is never a `Lock` instance, so the `instanceof Lock` branch
never fires there). -/
def decLock (o : List (String × JVal)) : Except String (Option Lock) :=
  match getField o "lock" with
  | none => .ok none
  | some .jnull => .ok none
  | some (.jobj lo) => do
      let a ← decBN lo "amount"
      let e ← decBN lo "expiration"
      let h ← decBuf lo "hashLock" EMPTY_32BYTE_BUFFER
      .ok (some ⟨a, e, h⟩)
  | some _ => .error "lock field shape outside the modelled wire image"

/-- Model of `new Proof(jsonObj)`. -/
def mkProof (o : List (String × JVal)) : Except String Proof := do
  let sig ← decSig o
  let n ← decBN o "nonce"
  let tA ← decBN o "transferredAmount"
  let lr ← decBuf o "locksRoot" EMPTY_32BYTE_BUFFER
  let ca ← decBuf o "channelAddress" EMPTY_20BYTE_BUFFER
  let mh ← decBuf o "messageHash" EMPTY_32BYTE_BUFFER
  .ok ⟨n, tA, lr, ca, mh, sig⟩

/-- Model of `new ProofMessage(jsonObj)`. -/
def mkProofMessage (o : List (String × JVal)) : Except String ProofMessage := do
  let sig ← decSig o
  let n ← decBN o "nonce"
  let tA ← decBN o "transferredAmount"
  let lr ← decBuf o "locksRoot" EMPTY_32BYTE_BUFFER
  let ca ← decBuf o "channelAddress" EMPTY_20BYTE_BUFFER
  let mh ← decBuf o "messageHash" EMPTY_32BYTE_BUFFER
  .ok ⟨n, tA, lr, ca, mh, sig⟩

/-- Model of `new DirectTransfer(jsonObj)`. -/
def mkDirectTransfer (o : List (String × JVal)) : Except String DirectTransfer := do
  let sig ← decSig o
  let n ← decBN o "nonce"
  let tA ← decBN o "transferredAmount"
  let lr ← decBuf o "locksRoot" EMPTY_32BYTE_BUFFER
  let ca ← decBuf o "channelAddress" EMPTY_20BYTE_BUFFER
  let mh ← decBuf o "messageHash" EMPTY_32BYTE_BUFFER
  let mid ← decBN o "msgID"
  let to_ ← decBuf o "to" EMPTY_20BYTE_BUFFER
  .ok ⟨n, tA, lr, ca, mh, mid, to_, sig⟩

/-- Model of `new LockedTransfer(jsonObj)`. -/
def mkLockedTransfer (o : List (String × JVal)) : Except String LockedTransfer := do
  let sig ← decSig o
  let n ← decBN o "nonce"
  let tA ← decBN o "transferredAmount"
  let lr ← decBuf o "locksRoot" EMPTY_32BYTE_BUFFER
  let ca ← decBuf o "channelAddress" EMPTY_20BYTE_BUFFER
  let mh ← decBuf o "messageHash" EMPTY_32BYTE_BUFFER
  let mid ← decBN o "msgID"
  let to_ ← decBuf o "to" EMPTY_20BYTE_BUFFER
  let lk ← decLock o
  .ok ⟨n, tA, lr, ca, mh, mid, to_, lk, sig⟩

/-- Model of `new MediatedTransfer(jsonObj)`. -/
def mkMediatedTransfer (o : List (String × JVal)) : Except String MediatedTransfer := do
  let sig ← decSig o
  let n ← decBN o "nonce"
  let tA ← decBN o "transferredAmount"
  let lr ← decBuf o "locksRoot" EMPTY_32BYTE_BUFFER
  let ca ← decBuf o "channelAddress" EMPTY_20BYTE_BUFFER
  let mh ← decBuf o "messageHash" EMPTY_32BYTE_BUFFER
  let mid ← decBN o "msgID"
  let to_ ← decBuf o "to" EMPTY_20BYTE_BUFFER
  let lk ← decLock o
  let tg ← decBuf o "target" EMPTY_20BYTE_BUFFER
  let ini ← decBuf o "initiator" EMPTY_20BYTE_BUFFER
  .ok ⟨n, tA, lr, ca, mh, mid, to_, lk, tg, ini, sig⟩

/-- Model of `new RequestSecret(jsonObj)`. -/
def mkRequestSecret (o : List (String × JVal)) : Except String RequestSecret := do
  let sig ← decSig o
  let mid ← decBN o "msgID"
  let to_ ← decBuf o "to" EMPTY_20BYTE_BUFFER
  let hl ← decBuf o "hashLock" EMPTY_32BYTE_BUFFER
  let am ← decBN o "amount"
  .ok ⟨mid, to_, hl, am, sig⟩

/-- Model of `new RevealSecret(jsonObj)`. -/
def mkRevealSecret (o : List (String × JVal)) : Except String RevealSecret := do
  let sig ← decSig o
  let sec ← decBuf o "secret" EMPTY_32BYTE_BUFFER
  let to_ ← decBuf o "to" EMPTY_20BYTE_BUFFER
  .ok ⟨sec, to_, sig⟩

/-- Model of `new SecretToProof(jsonObj)`. -/
def mkSecretToProof (o : List (String × JVal)) : Except String SecretToProof := do
  let sig ← decSig o
  let n ← decBN o "nonce"
  let tA ← decBN o "transferredAmount"
  let lr ← decBuf o "locksRoot" EMPTY_32BYTE_BUFFER
  let ca ← decBuf o "channelAddress" EMPTY_20BYTE_BUFFER
  let mh ← decBuf o "messageHash" EMPTY_32BYTE_BUFFER
  let mid ← decBN o "msgID"
  let to_ ← decBuf o "to" EMPTY_20BYTE_BUFFER
  let sec ← decBuf o "secret" EMPTY_32BYTE_BUFFER
  .ok ⟨n, tA, lr, ca, mh, mid, to_, sec, sig⟩

/-- Model of `new Ack(options)`. The source stores `options.msgID || new BN 0`
without `TO_BN`, so a wire-revived msgID would remain a hex numeral string;
the model keeps its numeric value (this case is unreachable from
`SERIALIZE`, which never tags an `Ack`). -/
def mkAck (o : List (String × JVal)) : Except String Ack := do
  let to_ ← decBuf o "to" EMPTY_20BYTE_BUFFER
  let mh ← decBuf o "messageHash" EMPTY_32BYTE_BUFFER
  let mid ← decBN o "msgID"
  .ok ⟨to_, mh, mid⟩

/-- The tagged message kinds `DESERIALIZE_AND_DECODE_MESSAGE` dispatches on. -/
inductive Message where
  | proof (p : Proof)
  | proofMessage (p : ProofMessage)
  | directTransfer (m : DirectTransfer)
  | lockedTransfer (m : LockedTransfer)
  | mediatedTransfer (m : MediatedTransfer)
  | requestSecret (m : RequestSecret)
  | revealSecret (m : RevealSecret)
  | secretToProof (m : SecretToProof)
  | ack (a : Ack)
  deriving DecidableEq, Repr

/-- A `BN` serialises via `toJSON` to its base-16 numeral string. -/
def encBN (n : Nat) : JVal := .jhex (Nat.digits 16 n)

/-- A stored signature serialises to its object; `null` stays `null`. -/
def encSig : Option Signature → JVal
  | none => .jnull
  | some s => .jobj [("r", .jbuf s.r), ("s", .jbuf s.s), ("v", .jnum s.v)]

/-- A `Lock` instance serialises to its plain fields (class `Lock` sets no
`classType`). -/
def encLock (l : Lock) : JVal :=
  .jobj [("amount", encBN l.amount), ("expiration", encBN l.expiration),
         ("hashLock", .jbuf l.hashLock)]

/-- `JSON.parse(SERIALIZE(m), JSON_REVIVER_FUNC)`: the revived object graph
of `JSON.stringify` on each message instance — its own enumerable
properties in insertion order. `SignedMessage` subclasses carry
`classType = this.constructor.name`; `Ack` carries no `classType`; an unset
`lock` (undefined) is omitted by `stringify`. -/
def SERIALIZE_REVIVED : Message → JVal
  | .proof p => .jobj [("classType", .jstr "Proof"), ("signature", encSig p.signature),
      ("nonce", encBN p.nonce), ("transferredAmount", encBN p.transferredAmount),
      ("locksRoot", .jbuf p.locksRoot), ("channelAddress", .jbuf p.channelAddress),
      ("messageHash", .jbuf p.messageHash)]
  | .proofMessage p => .jobj [("classType", .jstr "ProofMessage"), ("signature", encSig p.signature),
      ("nonce", encBN p.nonce), ("transferredAmount", encBN p.transferredAmount),
      ("locksRoot", .jbuf p.locksRoot), ("channelAddress", .jbuf p.channelAddress),
      ("messageHash", .jbuf p.messageHash)]
  | .directTransfer m => .jobj [("classType", .jstr "DirectTransfer"), ("signature", encSig m.signature),
      ("nonce", encBN m.nonce), ("transferredAmount", encBN m.transferredAmount),
      ("locksRoot", .jbuf m.locksRoot), ("channelAddress", .jbuf m.channelAddress),
      ("messageHash", .jbuf m.messageHash), ("msgID", encBN m.msgID), ("to", .jbuf m.to_)]
  | .lockedTransfer m => .jobj ([("classType", .jstr "LockedTransfer"), ("signature", encSig m.signature),
      ("nonce", encBN m.nonce), ("transferredAmount", encBN m.transferredAmount),
      ("locksRoot", .jbuf m.locksRoot), ("channelAddress", .jbuf m.channelAddress),
      ("messageHash", .jbuf m.messageHash), ("msgID", encBN m.msgID), ("to", .jbuf m.to_)]
      ++ (match m.lock with
          | some l => [("lock", encLock l)]
          | none => []))
  | .mediatedTransfer m => .jobj ([("classType", .jstr "MediatedTransfer"), ("signature", encSig m.signature),
      ("nonce", encBN m.nonce), ("transferredAmount", encBN m.transferredAmount),
      ("locksRoot", .jbuf m.locksRoot), ("channelAddress", .jbuf m.channelAddress),
      ("messageHash", .jbuf m.messageHash), ("msgID", encBN m.msgID), ("to", .jbuf m.to_)]
      ++ (match m.lock with
          | some l => [("lock", encLock l)]
          | none => [])
      ++ [("target", .jbuf m.target), ("initiator", .jbuf m.initiator)])
  | .requestSecret m => .jobj [("classType", .jstr "RequestSecret"), ("signature", encSig m.signature),
      ("msgID", encBN m.msgID), ("to", .jbuf m.to_), ("hashLock", .jbuf m.hashLock),
      ("amount", encBN m.amount)]
  | .revealSecret m => .jobj [("classType", .jstr "RevealSecret"), ("signature", encSig m.signature),
      ("secret", .jbuf m.secret), ("to", .jbuf m.to_)]
  | .secretToProof m => .jobj [("classType", .jstr "SecretToProof"), ("signature", encSig m.signature),
      ("nonce", encBN m.nonce), ("transferredAmount", encBN m.transferredAmount),
      ("locksRoot", .jbuf m.locksRoot), ("channelAddress", .jbuf m.channelAddress),
      ("messageHash", .jbuf m.messageHash), ("msgID", encBN m.msgID), ("to", .jbuf m.to_),
      ("secret", .jbuf m.secret)]
  | .ack a => .jobj [("to", .jbuf a.to_), ("messageHash", .jbuf a.messageHash),
      ("msgID", encBN a.msgID)]

/-- `DESERIALIZE_AND_DECODE_MESSAGE`: dispatch on the `classType`
discriminator and run the matching constructor; a missing discriminator is
`'Invalid Message: not a recoginized GOT message type'` (sic), an
unrecognised one `'Invalid Message: unknown classType'`. The switch's
`SignedMessage`, `Lock` and `OpenLock` cases construct variants outside the
nine modelled message kinds and never arise from `SERIALIZE` of these. -/
def DESERIALIZE_AND_DECODE_MESSAGE (v : JVal) : Except String Message :=
  match v with
  | .jobj o =>
    match getField o "classType" with
    | some (.jstr ct) =>
      if ct = "Proof" then (mkProof o).map Message.proof
      else if ct = "ProofMessage" then (mkProofMessage o).map Message.proofMessage
      else if ct = "DirectTransfer" then (mkDirectTransfer o).map Message.directTransfer
      else if ct = "LockedTransfer" then (mkLockedTransfer o).map Message.lockedTransfer
      else if ct = "MediatedTransfer" then (mkMediatedTransfer o).map Message.mediatedTransfer
      else if ct = "RequestSecret" then (mkRequestSecret o).map Message.requestSecret
      else if ct = "RevealSecret" then (mkRevealSecret o).map Message.revealSecret
      else if ct = "SecretToProof" then (mkSecretToProof o).map Message.secretToProof
      else if ct = "Ack" then (mkAck o).map Message.ack
      else if ct = "SignedMessage" ∨ ct = "Lock" ∨ ct = "OpenLock" then
        .error "classType outside the modelled message kinds"
      else .error "Invalid Message: unknown classType"
    | some _ => .error "Invalid Message: unknown classType"
    | none => .error "Invalid Message: not a recoginized GOT message type"
  | _ => .error "Invalid Message: not a recoginized GOT message type"

/-- Helper: reduction of a successful `Except` bind. -/
theorem exceptBind_ok {α β ε : Type} (a : α) (f : α → Except ε β) :
    (do let x ← Except.ok a; f x : Except ε β) = f a := rfl

/-- Helper: inversion of a successful `Except` bind. -/
theorem exceptBind_eq_ok {α β ε : Type} {ma : Except ε α} {f : α → Except ε β}
    {b : β} (h : (do let x ← ma; f x : Except ε β) = .ok b) :
    ∃ a, ma = .ok a ∧ f a = .ok b := by
  cases ma with
  | error e => exact absurd h (by simp [Bind.bind, Except.bind])
  | ok a => exact ⟨a, rfl, h⟩

/-- C7 (counterexample): decode-of-encode does not reproduce an `Ack`. For
the concrete `Ack{to = 20×01, messageHash = 32×02, msgID = 7}` the decoder
rejects the serialised form outright — `Ack` instances carry no `classType`
tag — instead of returning a message of the same kind. -/
theorem C7_counterexample :
    DESERIALIZE_AND_DECODE_MESSAGE (SERIALIZE_REVIVED
      (.ack { to_ := List.replicate 20 1, messageHash := List.replicate 32 2,
              msgID := 7 })) =
      .error "Invalid Message: not a recoginized GOT message type" := by
  rfl

/-- C7 (amended): decoding the encoding of a message reproduces identical
field values — including exact byte equality of buffer fields — for the
eight `SignedMessage` kinds (Proof, ProofMessage, DirectTransfer,
LockedTransfer, MediatedTransfer, RequestSecret, RevealSecret,
SecretToProof), which carry a `classType` tag; an `Ack` sets no `classType`
and its serialised form is rejected by the decoder. -/
theorem C7_amended_roundtrip (m : Message) :
    DESERIALIZE_AND_DECODE_MESSAGE (SERIALIZE_REVIVED m) =
      (match m with
       | .ack _ => .error "Invalid Message: not a recoginized GOT message type"
       | _ => .ok m) := by
  cases m with
  | proof p =>
    obtain ⟨n, tA, lr, ca, mh, sig⟩ := p
    rcases sig with _ | ⟨r, sv, v⟩ <;>
      simp [SERIALIZE_REVIVED, DESERIALIZE_AND_DECODE_MESSAGE, mkProof,
        decSig, decBN, decBuf, getField, encBN, encSig, Nat.ofDigits_digits,
        exceptBind_ok, Except.map]
  | proofMessage p =>
    obtain ⟨n, tA, lr, ca, mh, sig⟩ := p
    rcases sig with _ | ⟨r, sv, v⟩ <;>
      simp [SERIALIZE_REVIVED, DESERIALIZE_AND_DECODE_MESSAGE, mkProofMessage,
        decSig, decBN, decBuf, getField, encBN, encSig, Nat.ofDigits_digits,
        exceptBind_ok, Except.map]
  | directTransfer m =>
    obtain ⟨n, tA, lr, ca, mh, mid, to_, sig⟩ := m
    rcases sig with _ | ⟨r, sv, v⟩ <;>
      simp [SERIALIZE_REVIVED, DESERIALIZE_AND_DECODE_MESSAGE, mkDirectTransfer,
        decSig, decBN, decBuf, getField, encBN, encSig, Nat.ofDigits_digits,
        exceptBind_ok, Except.map]
  | lockedTransfer m =>
    obtain ⟨n, tA, lr, ca, mh, mid, to_, lk, sig⟩ := m
    rcases sig with _ | ⟨r, sv, v⟩ <;> rcases lk with _ | ⟨la, le, lh⟩ <;>
      simp [SERIALIZE_REVIVED, DESERIALIZE_AND_DECODE_MESSAGE, mkLockedTransfer,
        decSig, decBN, decBuf, decLock, getField, encBN, encSig, encLock,
        Nat.ofDigits_digits, exceptBind_ok, Except.map]
  | mediatedTransfer m =>
    obtain ⟨n, tA, lr, ca, mh, mid, to_, lk, tg, ini, sig⟩ := m
    rcases sig with _ | ⟨r, sv, v⟩ <;> rcases lk with _ | ⟨la, le, lh⟩ <;>
      simp [SERIALIZE_REVIVED, DESERIALIZE_AND_DECODE_MESSAGE, mkMediatedTransfer,
        decSig, decBN, decBuf, decLock, getField, encBN, encSig, encLock,
        Nat.ofDigits_digits, exceptBind_ok, Except.map]
  | requestSecret m =>
    obtain ⟨mid, to_, hl, am, sig⟩ := m
    rcases sig with _ | ⟨r, sv, v⟩ <;>
      simp [SERIALIZE_REVIVED, DESERIALIZE_AND_DECODE_MESSAGE, mkRequestSecret,
        decSig, decBN, decBuf, getField, encBN, encSig, Nat.ofDigits_digits,
        exceptBind_ok, Except.map]
  | revealSecret m =>
    obtain ⟨sec, to_, sig⟩ := m
    rcases sig with _ | ⟨r, sv, v⟩ <;>
      simp [SERIALIZE_REVIVED, DESERIALIZE_AND_DECODE_MESSAGE, mkRevealSecret,
        decSig, decBN, decBuf, getField, encBN, encSig, Nat.ofDigits_digits,
        exceptBind_ok, Except.map]
  | secretToProof m =>
    obtain ⟨n, tA, lr, ca, mh, mid, to_, sec, sig⟩ := m
    rcases sig with _ | ⟨r, sv, v⟩ <;>
      simp [SERIALIZE_REVIVED, DESERIALIZE_AND_DECODE_MESSAGE, mkSecretToProof,
        decSig, decBN, decBuf, getField, encBN, encSig, Nat.ofDigits_digits,
        exceptBind_ok, Except.map]
  | ack a =>
    simp [SERIALIZE_REVIVED, DESERIALIZE_AND_DECODE_MESSAGE, getField, encBN]

/-- The `UnsignedError` message thrown by the `from` getter. -/
def UnsignedError : String := "no signature to recover address from"

/-- `util.pubToAddress`: the last 20 bytes of the keccak of the public
key. -/
def pubToAddress (keccak : Bytes → Bytes) (pubKey : Bytes) : Bytes :=
  (keccak pubKey).drop ((keccak pubKey).length - 20)

/-- `SignedMessage._recoverAddress()`: recover the public key from the
message hash and the stored signature (`util.ecrecover`, an external
secp256k1 primitive taken as a parameter), then derive the address. -/
def recoverAddress (keccak : Bytes → Bytes)
    (ecrecover : Bytes → Nat → Bytes → Bytes → Bytes)
    (msgHash : Bytes) (sig : Signature) : Bytes :=
  pubToAddress keccak (ecrecover msgHash sig.v sig.r sig.s)

/-- The `SignedMessage.from` getter, as a fallible accessor: with no
signature it fails with `UnsignedError`; otherwise it recovers the sender
address from the kind-specific `getHash()` value and the signature. -/
def signedMessageFrom (keccak : Bytes → Bytes)
    (ecrecover : Bytes → Nat → Bytes → Bytes → Bytes)
    (msgHash : Bytes) (signature : Option Signature) : Except String Bytes :=
  match signature with
  | none => .error UnsignedError
  | some sig => .ok (recoverAddress keccak ecrecover msgHash sig)

/-- C9: for every signed message, the `from` derivation fails with
`UnsignedError` exactly when no signature is present, and with a signature
present it recovers and returns a 20-byte address (keccak digests being 32
bytes); the failure is an `Except.error` result of the accessor. -/
theorem C9_sender_accessor (keccak : Bytes → Bytes)
    (ecrecover : Bytes → Nat → Bytes → Bytes → Bytes)
    (msgHash : Bytes) (signature : Option Signature)
    (hk : ∀ b, (keccak b).length = 32) :
    (signedMessageFrom keccak ecrecover msgHash signature = .error UnsignedError
      ↔ signature = none)
    ∧ (∀ sig, signature = some sig →
        ∃ a, signedMessageFrom keccak ecrecover msgHash signature = .ok a
          ∧ a.length = 20) := by
  constructor
  · cases signature <;> simp [signedMessageFrom]
  · intro sig hsig
    subst hsig
    refine ⟨recoverAddress keccak ecrecover msgHash sig, rfl, ?_⟩
    simp [recoverAddress, pubToAddress, hk]

/-- C9 (witness): the accessor characterisation at a concrete 32-byte-output
hash function, with and without a signature. -/
theorem C9_sender_accessor_witness :
    (signedMessageFrom (fun _ => List.replicate 32 0) (fun _ _ _ _ => [])
        (List.replicate 32 3) none = .error UnsignedError ↔ (none : Option Signature) = none)
    ∧ (∃ a, signedMessageFrom (fun _ => List.replicate 32 0) (fun _ _ _ _ => [])
        (List.replicate 32 3)
        (some { r := List.replicate 32 1, s := List.replicate 32 2, v := 27 }) = .ok a
        ∧ a.length = 20) := by
  constructor
  · exact (C9_sender_accessor (fun _ => List.replicate 32 0) (fun _ _ _ _ => [])
      (List.replicate 32 3) none (fun b => by simp)).1
  · exact (C9_sender_accessor (fun _ => List.replicate 32 0) (fun _ _ _ _ => [])
      (List.replicate 32 3)
      (some { r := List.replicate 32 1, s := List.replicate 32 2, v := 27 })
      (fun b => by simp)).2
      { r := List.replicate 32 1, s := List.replicate 32 2, v := 27 } rfl

/-- C10: constructing a `LockedTransfer` from options that carry no lock
(absent or `null`, i.e. falsy) leaves the constructed object's `lock` field
unset rather than a default `Lock`, so a subsequent `getMessageHash()`
fails (returns no digest) instead of hashing. -/
theorem C10_lockless_constructor (o : List (String × JVal))
    (lt : LockedTransfer) (keccak : Bytes → Bytes)
    (h : getField o "lock" = none ∨ getField o "lock" = some .jnull)
    (hmk : mkLockedTransfer o = .ok lt) :
    lt.lock = none ∧ lt.getMessageHash keccak = none := by
  have hlock : decLock o = .ok none := by
    rcases h with h | h <;> simp [decLock, h]
  rw [mkLockedTransfer] at hmk
  obtain ⟨sig, _, hmk⟩ := exceptBind_eq_ok hmk
  obtain ⟨n, _, hmk⟩ := exceptBind_eq_ok hmk
  obtain ⟨tA, _, hmk⟩ := exceptBind_eq_ok hmk
  obtain ⟨lr, _, hmk⟩ := exceptBind_eq_ok hmk
  obtain ⟨ca, _, hmk⟩ := exceptBind_eq_ok hmk
  obtain ⟨mh, _, hmk⟩ := exceptBind_eq_ok hmk
  obtain ⟨mid, _, hmk⟩ := exceptBind_eq_ok hmk
  obtain ⟨to_, _, hmk⟩ := exceptBind_eq_ok hmk
  obtain ⟨lk, hlk, hmk⟩ := exceptBind_eq_ok hmk
  rw [hlock] at hlk
  cases hlk
  cases hmk
  exact ⟨rfl, rfl⟩

/-- C10 (witness): built from empty options — every field defaulted — the
locked transfer has no lock and `getMessageHash()` yields no digest. -/
theorem C10_lockless_constructor_witness :
    ({ nonce := 0, transferredAmount := 0, locksRoot := EMPTY_32BYTE_BUFFER,
       channelAddress := EMPTY_20BYTE_BUFFER, messageHash := EMPTY_32BYTE_BUFFER,
       msgID := 0, to_ := EMPTY_20BYTE_BUFFER, lock := none,
       signature := none } : LockedTransfer).lock = none
    ∧ LockedTransfer.getMessageHash (fun b => b)
      { nonce := 0, transferredAmount := 0, locksRoot := EMPTY_32BYTE_BUFFER,
        channelAddress := EMPTY_20BYTE_BUFFER, messageHash := EMPTY_32BYTE_BUFFER,
        msgID := 0, to_ := EMPTY_20BYTE_BUFFER, lock := none,
        signature := none } = none := by
  exact C10_lockless_constructor []
    { nonce := 0, transferredAmount := 0, locksRoot := EMPTY_32BYTE_BUFFER,
      channelAddress := EMPTY_20BYTE_BUFFER, messageHash := EMPTY_32BYTE_BUFFER,
      msgID := 0, to_ := EMPTY_20BYTE_BUFFER, lock := none,
      signature := none } (fun b => b) (Or.inl rfl) rfl

end GN
